import Mathlib

/-!
Verification of the AI-video-master batch-processing core.

This file gives a shallow embedding of the quality gates, the fallback
range generator, the extraction loops, the submission retry loop and the
batch drivers of the two pipelines (`video_to_slice` and `video_to_srt`),
and proves the stated properties about them.

Filesystem metadata (existence and size of produced files) is passed
explicitly as a map from paths to an optional byte size (`none` means the
file does not exist), mirroring the `os.path.exists` / `os.path.getsize`
calls of the source.  Real-number quantities (durations, ratios) are
modelled with `ℚ`.
-/

namespace AIVideoMaster

/-- Filesystem metadata: byte size per path, `none` when the file is absent. -/
def FileSystem : Type := String → Option ℕ

/-- One slice artifact as recorded in `slice_results`
(`batch_video_to_slice.py`): the produced file's path and the slice's
duration in seconds. -/
structure SliceInfo where
  file_path : String
  duration : ℚ
  deriving DecidableEq

/-- Per-artifact validity check of `BatchVideoSlicer._validate_slice_quality`
(`batch_video_to_slice.py` lines 111-133): the slice is counted invalid when
the file is missing, when `file_size < 1024`, or when
`duration <= 0 or duration > 300`; otherwise it is counted valid. -/
def slice_is_valid (fs : FileSystem) (s : SliceInfo) : Bool :=
  match fs s.file_path with
  | none => false
  | some file_size =>
    if file_size < 1024 then false
    else if s.duration ≤ 0 ∨ s.duration > 300 then false
    else true

/-- The distinct rejection reasons of the serial slice gate. -/
inductive SliceGateReason
  | noSlices
  | lowValidRatio
  | highErrorRatio
  | tooFewValid
  deriving DecidableEq

/-- Verdict of the serial slice gate. -/
structure SliceQualityReport where
  passed : Bool
  reason : Option SliceGateReason
  total_slices : ℕ
  valid_slices : ℕ
  invalid_slices : ℕ
  valid_ratio : ℚ
  error_ratio : ℚ
  total_duration : ℚ
  deriving DecidableEq

/-- `BatchVideoSlicer._validate_slice_quality` (`batch_video_to_slice.py`
lines 76-194).  Empty input rejects at once; otherwise each slice is
classified by `slice_is_valid`, the ratios are formed over the total count,
and the first violated check among valid-ratio (< 0.8), error-ratio (> 0.2)
and minimum valid count (< 2) rejects. -/
def validate_slice_quality (fs : FileSystem) (slices : List SliceInfo) :
    SliceQualityReport :=
  if slices.isEmpty then
    { passed := false, reason := some .noSlices, total_slices := 0,
      valid_slices := 0, invalid_slices := 0, valid_ratio := 0,
      error_ratio := 0, total_duration := 0 }
  else
    let total_slices := slices.length
    let valid_slices := slices.countP (fun s => slice_is_valid fs s)
    let invalid_slices := slices.countP (fun s => !slice_is_valid fs s)
    let total_duration :=
      ((slices.filter (fun s => slice_is_valid fs s)).map SliceInfo.duration).sum
    let valid_ratio : ℚ := (valid_slices : ℚ) / (total_slices : ℚ)
    let error_ratio : ℚ := (invalid_slices : ℚ) / (total_slices : ℚ)
    if valid_ratio < 8/10 then
      { passed := false, reason := some .lowValidRatio,
        total_slices := total_slices, valid_slices := valid_slices,
        invalid_slices := invalid_slices, valid_ratio := valid_ratio,
        error_ratio := error_ratio, total_duration := total_duration }
    else if error_ratio > 2/10 then
      { passed := false, reason := some .highErrorRatio,
        total_slices := total_slices, valid_slices := valid_slices,
        invalid_slices := invalid_slices, valid_ratio := valid_ratio,
        error_ratio := error_ratio, total_duration := total_duration }
    else if valid_slices < 2 then
      { passed := false, reason := some .tooFewValid,
        total_slices := total_slices, valid_slices := valid_slices,
        invalid_slices := invalid_slices, valid_ratio := valid_ratio,
        error_ratio := error_ratio, total_duration := total_duration }
    else
      { passed := true, reason := none,
        total_slices := total_slices, valid_slices := valid_slices,
        invalid_slices := invalid_slices, valid_ratio := valid_ratio,
        error_ratio := error_ratio, total_duration := total_duration }

/-- Per-artifact validity check of the parallel processor's gate
(`parallel_batch_processor.py` lines 173-178): valid when the file exists
and `file_size > 1024`; the duration is not checked there. -/
def parallel_slice_is_valid (fs : FileSystem) (s : SliceInfo) : Bool :=
  match fs s.file_path with
  | none => false
  | some file_size => 1024 < file_size

/-- Verdict of the parallel processor's gate. -/
structure ParallelSliceQualityReport where
  passed : Bool
  success_rate : ℚ
  total_slices : ℕ
  valid_slices : ℕ
  total_duration : ℚ
  deriving DecidableEq

/-- `ParallelBatchProcessor._validate_slice_quality`
(`parallel_batch_processor.py` lines 159-194).  Empty input rejects;
otherwise the verdict is `success_rate >= 80` where
`success_rate = (valid_slices / total_slices) * 100`; there is no separate
error-ratio or minimum-count condition. -/
def parallel_validate_slice_quality (fs : FileSystem)
    (slices : List SliceInfo) : ParallelSliceQualityReport :=
  if slices.isEmpty then
    { passed := false, success_rate := 0, total_slices := 0,
      valid_slices := 0, total_duration := 0 }
  else
    let total_slices := slices.length
    let valid_slices := slices.countP (fun s => parallel_slice_is_valid fs s)
    let total_duration :=
      ((slices.filter (fun s => parallel_slice_is_valid fs s)).map
        SliceInfo.duration).sum
    let success_rate : ℚ := (valid_slices : ℚ) / (total_slices : ℚ) * 100
    { passed := decide (80 ≤ success_rate), success_rate := success_rate,
      total_slices := total_slices, valid_slices := valid_slices,
      total_duration := total_duration }

/-- One shot / time range as produced by `extract_shots` or
`_create_default_shots`: index, start and end offsets in seconds, and the
derived duration. -/
structure Shot where
  index : ℕ
  start_time : ℚ
  end_time : ℚ
  duration : ℚ
  deriving DecidableEq

/-- The `while current_time < duration` loop of `_create_default_shots`
(`batch_video_to_slice.py` lines 360-377 and `parallel_batch_processor.py`
lines 133-151), with an explicit structural bound on the number of
iterations (the loop advances `current_time` by `segment_duration` each
round, so any bound of at least `⌈total / seg⌉` iterations is exact). -/
def default_shots_loop (total_duration segment_duration : ℚ) :
    ℕ → ℚ → ℕ → List Shot
  | 0, _, _ => []
  | fuel + 1, current_time, index =>
    if current_time < total_duration then
      let end_time :=
        if current_time + segment_duration ≤ total_duration then
          current_time + segment_duration
        else total_duration
      { index := index, start_time := current_time, end_time := end_time,
        duration := end_time - current_time } ::
        default_shots_loop total_duration segment_duration fuel end_time
          (index + 1)
    else []

/-- `_create_default_shots` given the probed duration of the file: a
non-positive probed duration returns the empty list, otherwise uniform
ranges of `segment_duration` seconds are generated, the last truncated to
the probed duration. -/
def create_default_shots (total_duration : ℚ)
    (segment_duration : ℚ := 10) : List Shot :=
  if total_duration ≤ 0 then []
  else
    default_shots_loop total_duration segment_duration
      (⌈total_duration / segment_duration⌉.toNat + 1) 0 1

/-- The slicing loop of `BatchVideoSlicer.process_video`
(`batch_video_to_slice.py` lines 252-291): shots with
`duration < 1.0` are skipped with `continue` before `extract_segment` is
invoked; for the others the encoder is invoked and a slice record is
appended only when it returns a path.  The first component collects the
shots actually handed to the encoder, the second the appended results. -/
def process_video_slices (encoder : Shot → Option SliceInfo) :
    List Shot → List Shot × List SliceInfo
  | [] => ([], [])
  | shot :: rest =>
    if shot.end_time - shot.start_time < 1 then
      process_video_slices encoder rest
    else
      let tail := process_video_slices encoder rest
      match encoder shot with
      | some info => (shot :: tail.1, info :: tail.2)
      | none => (shot :: tail.1, tail.2)

/-- The submission loop of `ParallelVideoSlicer.extract_segments_parallel`
(`parallel_video_slicer.py` lines 186-201): after the empty-input early
return, one extraction task is submitted per segment, with no duration
filter. -/
def extract_segments_parallel_submissions (segments : List Shot) :
    List (ℚ × ℚ) :=
  if segments.isEmpty then []
  else segments.map (fun s => (s.start_time, s.end_time))

/-- One raw transcript segment as handed to
`BatchVideoTranscriber._validate_segments_quality`: the `start`, `end` and
`text` keys may each be absent (the code first checks
`all(key in segment for key in ['start', 'end', 'text'])`). -/
structure RawSegment where
  start? : Option ℚ
  stop? : Option ℚ
  text? : Option String
  deriving DecidableEq

/-- Python's `str.strip()`: remove leading and trailing whitespace
characters (written out on the character list so that it evaluates by
reduction). -/
def strip (t : String) : String :=
  ⟨(((t.data.dropWhile Char.isWhitespace).reverse.dropWhile
    Char.isWhitespace).reverse)⟩

namespace RawSegment

/-- `all(key in segment for key in ['start', 'end', 'text'])`. -/
def has_fields (s : RawSegment) : Bool :=
  s.start?.isSome && s.stop?.isSome && s.text?.isSome

/-- `segment.get('start', 0)`. -/
def start_time (s : RawSegment) : ℚ := s.start?.getD 0

/-- `segment.get('end', 0)`. -/
def end_time (s : RawSegment) : ℚ := s.stop?.getD 0

/-- `segment.get('text', '').strip()`. -/
def text (s : RawSegment) : String := strip (s.text?.getD "")

/-- The segment trips the timestamp check
(`start_time < 0 or end_time <= start_time`), reached only when all
required fields are present. -/
def timestamp_error (s : RawSegment) : Bool :=
  s.has_fields && decide (s.start_time < 0 ∨ s.end_time ≤ s.start_time)

/-- The segment trips the empty-text check, reached only when the fields
are present and the timestamps are valid. -/
def text_missing (s : RawSegment) : Bool :=
  s.has_fields && !s.timestamp_error && decide (s.text = "")

/-- The segment is counted valid: fields present, timestamps valid,
trimmed text non-empty.  The time-overlap check does not enter here. -/
def is_valid (s : RawSegment) : Bool :=
  s.has_fields && !s.timestamp_error && !decide (s.text = "")

end RawSegment

/-- The running count of time-overlap warnings: for each valid segment
whose `start_time` is below the previous valid segment's `end_time` the
counter is bumped; `previous_end` advances only at valid segments.
Invalid segments `continue` before the overlap check. -/
def overlap_errors_loop : List RawSegment → ℚ → ℕ
  | [], _ => 0
  | s :: rest, previous_end =>
    if s.is_valid then
      (if s.start_time < previous_end then 1 else 0) +
        overlap_errors_loop rest s.end_time
    else overlap_errors_loop rest previous_end

/-- The distinct rejection reasons of the transcript gate. -/
inductive SegmentGateReason
  | noSegments
  | tooFewValid
  | lowValidRatio
  | highErrorRatio
  deriving DecidableEq

/-- Verdict of the transcript gate. -/
structure SegmentQualityReport where
  passed : Bool
  reason : Option SegmentGateReason
  total_segments : ℕ
  valid_segments : ℕ
  invalid_segments : ℕ
  valid_ratio : ℚ
  error_ratio : ℚ
  timestamp_errors : ℕ
  text_missing : ℕ
  overlap_errors : ℕ
  deriving DecidableEq

/-- `BatchVideoTranscriber._validate_segments_quality`
(`batch_video_to_srt.py` lines 85-214).  The thresholds are parameters
(the code fixes `min_valid_ratio = 0.9`, `max_error_ratio = 0.1`,
`min_segments = 1`); the empty-input rejection happens before any of them
is consulted.  `error_ratio` divides only
`timestamp_errors + text_missing` by the total count; overlap warnings
are reported but take part in no check.  The checks fire in the order
minimum valid count, valid ratio, error ratio. -/
def validate_segments_quality (min_valid_ratio max_error_ratio : ℚ)
    (min_segments : ℕ) (segments : List RawSegment) :
    SegmentQualityReport :=
  if segments.isEmpty then
    { passed := false, reason := some .noSegments, total_segments := 0,
      valid_segments := 0, invalid_segments := 0, valid_ratio := 0,
      error_ratio := 0, timestamp_errors := 0, text_missing := 0,
      overlap_errors := 0 }
  else
    let total_segments := segments.length
    let valid_segments := segments.countP RawSegment.is_valid
    let invalid_segments := segments.countP (fun s => !s.is_valid)
    let timestamp_errors := segments.countP RawSegment.timestamp_error
    let text_missing := segments.countP RawSegment.text_missing
    let overlap_errors := overlap_errors_loop segments 0
    let valid_ratio : ℚ := (valid_segments : ℚ) / (total_segments : ℚ)
    let error_ratio : ℚ :=
      ((timestamp_errors : ℚ) + (text_missing : ℚ)) / (total_segments : ℚ)
    if valid_segments < min_segments then
      { passed := false, reason := some .tooFewValid,
        total_segments := total_segments, valid_segments := valid_segments,
        invalid_segments := invalid_segments, valid_ratio := valid_ratio,
        error_ratio := error_ratio, timestamp_errors := timestamp_errors,
        text_missing := text_missing, overlap_errors := overlap_errors }
    else if valid_ratio < min_valid_ratio then
      { passed := false, reason := some .lowValidRatio,
        total_segments := total_segments, valid_segments := valid_segments,
        invalid_segments := invalid_segments, valid_ratio := valid_ratio,
        error_ratio := error_ratio, timestamp_errors := timestamp_errors,
        text_missing := text_missing, overlap_errors := overlap_errors }
    else if error_ratio > max_error_ratio then
      { passed := false, reason := some .highErrorRatio,
        total_segments := total_segments, valid_segments := valid_segments,
        invalid_segments := invalid_segments, valid_ratio := valid_ratio,
        error_ratio := error_ratio, timestamp_errors := timestamp_errors,
        text_missing := text_missing, overlap_errors := overlap_errors }
    else
      { passed := true, reason := none,
        total_segments := total_segments, valid_segments := valid_segments,
        invalid_segments := invalid_segments, valid_ratio := valid_ratio,
        error_ratio := error_ratio, timestamp_errors := timestamp_errors,
        text_missing := text_missing, overlap_errors := overlap_errors }

/-- Outcome of one `annotate_video` submission attempt, as classified by
the retry loop of `GoogleVideoAnalyzer.analyze_video`
(`google_video_analyzer.py` lines 226-251): success, a transient error
(`"503" in str(e) or "failed to connect" in str(e)`), or any other
exception. -/
inductive AttemptOutcome
  | ok
  | transient
  | fatal
  deriving DecidableEq

/-- How the submission loop ends. -/
inductive SubmitResult
  | success (attempt : ℕ)
  | fatalError (attempt : ℕ)
  | exhausted
  | noOperation
  deriving DecidableEq

/-- The `while retry_count < max_retries` submission loop, recursing on the
remaining iteration budget `max_retries - retry_count`.  The second
component accumulates the seconds slept (`time.sleep(5)` before each
retry).  A transient failure retries when attempts remain and otherwise
raises the exhaustion error; any other exception is re-raised at once.
`noOperation` is the unreachable fall-through after the loop. -/
def submit_loop (oracle : ℕ → AttemptOutcome) (max_retries : ℕ) :
    ℕ → ℕ → ℕ → SubmitResult × ℕ
  | 0, _, slept => (.noOperation, slept)
  | remaining + 1, retry_count, slept =>
    match oracle retry_count with
    | .ok => (.success retry_count, slept)
    | .fatal => (.fatalError retry_count, slept)
    | .transient =>
      if retry_count + 1 < max_retries then
        submit_loop oracle max_retries remaining (retry_count + 1) (slept + 5)
      else (.exhausted, slept)

/-- The submission phase of `analyze_video` with its fixed
`max_retries = 3`: the attempt oracle gives the outcome of the k-th
attempt (k = the value of `retry_count` when `annotate_video` is called). -/
def analyze_video_submit (oracle : ℕ → AttemptOutcome) : SubmitResult × ℕ :=
  submit_loop oracle 3 3 0 0

/-- Result of `BatchVideoSlicer.process_batch` (`batch_video_to_slice.py`
lines 386-450): discovery failure (missing directory or no matching file)
returns `success = False`; otherwise every file is processed, per-item
failures only move counters, and the result carries `success = True`. -/
structure SliceBatchResult where
  success : Bool
  processed_videos : ℕ
  failed_videos : ℕ
  deriving DecidableEq

/-- `BatchVideoSlicer.process_batch`, with discovery abstracted to whether
the input directory exists and the list of matched files, and per-item
processing abstracted to its success flag. -/
def process_batch (dir_exists : Bool) (video_files : List String)
    (item_success : String → Bool) : SliceBatchResult :=
  if !dir_exists then
    { success := false, processed_videos := 0, failed_videos := 0 }
  else if video_files.isEmpty then
    { success := false, processed_videos := 0, failed_videos := 0 }
  else
    { success := true,
      processed_videos := video_files.countP item_success,
      failed_videos := video_files.countP (fun f => !item_success f) }

/-- The exit status computed by `main` of `batch_video_to_slice.py`
(lines 489-502): 0 when `process_batch` reported success, 1 otherwise. -/
def slicer_main_exit (dir_exists : Bool) (video_files : List String)
    (item_success : String → Bool) : ℕ :=
  if (process_batch dir_exists video_files item_success).success then 0
  else 1

/-- Outcome of `transcribe_video_to_srt_with_details` for one file:
success, quality rejection, or any other failure. -/
inductive TransOutcome
  | ok
  | qualityRejected
  | failed
  deriving DecidableEq

/-- Mutable state threaded through the loop of
`BatchVideoTranscriber.batch_process` (`batch_video_to_srt.py` lines
451-513).  `srt_exists` is the output directory's contents (a successful
transcription writes the SRT file, so the map is updated); `calls` records
the files actually handed to the transcriber; `success_files` pairs each
counted success with its status string. -/
structure SrtBatchState where
  srt_exists : String → Bool
  success_count : ℕ
  failed_count : ℕ
  quality_rejected_count : ℕ
  success_files : List (String × String)
  calls : List String

/-- The body of the `for video_file in video_files` loop: a file whose
target SRT already exists is counted as a success with status `"已存在"`
and skipped (`continue`); otherwise the transcriber runs and the three
outcome kinds move their counters, a success writing the SRT file. -/
def srt_process_file (transcribe : String → TransOutcome)
    (target : String → String) (st : SrtBatchState) (video_file : String) :
    SrtBatchState :=
  let output_srt_path := target video_file
  if st.srt_exists output_srt_path then
    { st with
      success_count := st.success_count + 1,
      success_files := st.success_files ++ [(video_file, "已存在")] }
  else
    match transcribe video_file with
    | .ok =>
      { st with
        srt_exists := fun p =>
          if p = output_srt_path then true else st.srt_exists p,
        success_count := st.success_count + 1,
        success_files := st.success_files ++ [(video_file, "新生成")],
        calls := st.calls ++ [video_file] }
    | .qualityRejected =>
      { st with
        quality_rejected_count := st.quality_rejected_count + 1,
        calls := st.calls ++ [video_file] }
    | .failed =>
      { st with
        failed_count := st.failed_count + 1,
        calls := st.calls ++ [video_file] }

/-- The whole per-file loop of `batch_process`. -/
def srt_batch_loop (transcribe : String → TransOutcome)
    (target : String → String) (st : SrtBatchState)
    (video_files : List String) : SrtBatchState :=
  video_files.foldl (srt_process_file transcribe target) st

/-- `BatchVideoTranscriber.batch_process` run from the initial counters,
`none` when discovery fails (missing input directory or no supported
file). -/
def srt_batch_process (dir_exists : Bool) (video_files : List String)
    (srt_exists0 : String → Bool) (transcribe : String → TransOutcome)
    (target : String → String) : Option SrtBatchState :=
  if !dir_exists then none
  else if video_files.isEmpty then none
  else
    some (srt_batch_loop transcribe target
      { srt_exists := srt_exists0, success_count := 0, failed_count := 0,
        quality_rejected_count := 0, success_files := [], calls := [] }
      video_files)

/-- The exit status computed by `main` of `batch_video_to_srt.py`
(lines 678-688): 0 only when the batch ran and `failed_count == 0`;
a positive `failed_count` exits 1 even though the batch ran and produced
its report. -/
def srt_main_exit (dir_exists : Bool) (video_files : List String)
    (srt_exists0 : String → Bool) (transcribe : String → TransOutcome)
    (target : String → String) : ℕ :=
  match srt_batch_process dir_exists video_files srt_exists0 transcribe
      target with
  | none => 1
  | some results => if results.failed_count = 0 then 0 else 1

/-- The loop body returns the empty list as soon as
`current_time < total_duration` fails, whatever iteration budget is
left. -/
lemma default_shots_loop_nil (d s : ℚ) (fuel : ℕ) (c : ℚ) (idx : ℕ)
    (h : ¬ c < d) : default_shots_loop d s fuel c idx = [] := by
  cases fuel <;> simp [default_shots_loop, h]

/-- Shape of the fallback-range loop started at offset `c < d` with an
iteration budget covering the remaining span: the produced list is
non-empty, every range ends at `min (start + s) d`, consecutive ranges are
contiguous, the first starts at `c` and the last ends exactly at `d`. -/
lemma default_shots_loop_spec (d s : ℚ) :
    ∀ (fuel : ℕ) (c : ℚ) (idx : ℕ), c < d → d - c ≤ s * (fuel : ℚ) →
      default_shots_loop d s fuel c idx ≠ [] ∧
      (∀ sh ∈ default_shots_loop d s fuel c idx,
        sh.end_time = min (sh.start_time + s) d ∧
        sh.duration = sh.end_time - sh.start_time) ∧
      List.Chain' (fun a b => a.end_time = b.start_time)
        (default_shots_loop d s fuel c idx) ∧
      (default_shots_loop d s fuel c idx).head?.map Shot.start_time =
        some c ∧
      ((default_shots_loop d s fuel c idx).getLast?).map Shot.end_time =
        some d := by
  intro fuel
  induction fuel with
  | zero =>
    intro c idx hc hb
    exfalso
    simp only [Nat.cast_zero, mul_zero] at hb
    linarith
  | succ fuel ih =>
    intro c idx hc hb
    simp only [default_shots_loop, if_pos hc]
    by_cases hcase : c + s < d
    · have he : (if c + s ≤ d then c + s else d) = c + s :=
        if_pos (le_of_lt hcase)
      have hb' : d - (c + s) ≤ s * (fuel : ℚ) := by
        push_cast at hb
        linarith
      obtain ⟨hne, hmem, hchain, hhead, hlast⟩ :=
        ih (if c + s ≤ d then c + s else d) (idx + 1)
          (by rw [he]; exact hcase) (by rw [he]; exact hb')
      refine ⟨by simp, ?_, ?_, by simp, ?_⟩
      · intro sh hsh
        rcases List.mem_cons.1 hsh with rfl | hsh
        · exact ⟨by rw [min_def], rfl⟩
        · exact hmem sh hsh
      · rw [List.chain'_cons']
        refine ⟨?_, hchain⟩
        intro b hb2
        have hb3 :
            (default_shots_loop d s fuel (if c + s ≤ d then c + s else d)
              (idx + 1)).head? = some b := hb2
        rw [hb3] at hhead
        simp only [Option.map_some'] at hhead
        exact (Option.some.inj hhead).symm
      · rcases List.exists_cons_of_ne_nil hne with ⟨t, ts, hts⟩
        rw [hts] at hlast ⊢
        simpa [List.getLast?_cons_cons] using hlast
    · have he : (if c + s ≤ d then c + s else d) = d := by
        rcases le_or_lt (c + s) d with hle | hlt
        · rw [if_pos hle]
          linarith [not_lt.1 hcase]
        · rw [if_neg (not_le.2 hlt)]
      have tail_nil :
          default_shots_loop d s fuel (if c + s ≤ d then c + s else d)
            (idx + 1) = [] :=
        default_shots_loop_nil _ _ _ _ _ (by rw [he]; exact lt_irrefl d)
      rw [tail_nil]
      refine ⟨by simp, ?_, by simp, by simp, by simp [he]⟩
      intro sh hsh
      rcases List.mem_cons.1 hsh with rfl | hsh
      · exact ⟨by rw [min_def], rfl⟩
      · simp at hsh

/-- C6: for a strictly positive probed duration the fallback generator
with 10-second segments produces a non-empty contiguous list of ranges
starting at 0, each range ending at `min (start + 10) d`, and the last
range ending exactly at the probed duration `d`; for `d = 25` it produces
exactly the three ranges [0,10), [10,20), [20,25); and for a probed
duration `≤ 0` it returns the empty list. -/
theorem create_default_shots_spec (total_duration : ℚ) :
    (total_duration ≤ 0 → create_default_shots total_duration 10 = []) ∧
    (0 < total_duration →
      create_default_shots total_duration 10 ≠ [] ∧
      (∀ sh ∈ create_default_shots total_duration 10,
        sh.end_time = min (sh.start_time + 10) total_duration ∧
        sh.duration = sh.end_time - sh.start_time) ∧
      List.Chain' (fun a b => a.end_time = b.start_time)
        (create_default_shots total_duration 10) ∧
      (create_default_shots total_duration 10).head?.map Shot.start_time =
        some 0 ∧
      ((create_default_shots total_duration 10).getLast?).map
        Shot.end_time = some total_duration) ∧
    create_default_shots 25 10 =
      [{ index := 1, start_time := 0, end_time := 10, duration := 10 },
       { index := 2, start_time := 10, end_time := 20, duration := 10 },
       { index := 3, start_time := 20, end_time := 25, duration := 5 }] := by
  have hceil : ⌈(25:ℚ) / 10⌉ = 3 := by
    rw [Int.ceil_eq_iff]
    norm_num
  refine ⟨?_, ?_, ?_⟩
  case refine_3 =>
    unfold create_default_shots
    rw [if_neg (by norm_num : ¬ (25:ℚ) ≤ 0), hceil]
    norm_num [default_shots_loop]
  · intro h
    simp [create_default_shots, h]
  · intro h
    have hne : ¬ total_duration ≤ 0 := not_le.2 h
    have h1 : total_duration / 10 ≤ (⌈total_duration / 10⌉ : ℚ) :=
      Int.le_ceil _
    have h2 : ((⌈total_duration / 10⌉ : ℤ) : ℚ) ≤
        ((⌈total_duration / 10⌉.toNat : ℕ) : ℚ) := by
      exact_mod_cast Int.self_le_toNat _
    have h3 : total_duration ≤ (⌈total_duration / 10⌉ : ℚ) * 10 :=
      (div_le_iff₀ (by norm_num)).1 h1
    have hb : total_duration - 0 ≤
        10 * ((⌈total_duration / 10⌉.toNat + 1 : ℕ) : ℚ) := by
      push_cast
      linarith
    have hspec := default_shots_loop_spec total_duration 10
      (⌈total_duration / 10⌉.toNat + 1) 0 1 h hb
    simpa [create_default_shots, hne] using hspec

/-- Concrete instantiation of `create_default_shots_spec`, discharging its
hypotheses at durations -1 and 25. -/
theorem create_default_shots_spec_witness :
    create_default_shots (-1) 10 = [] ∧
    (create_default_shots 25 10).head?.map Shot.start_time = some 0 := by
  refine ⟨(create_default_shots_spec (-1)).1 (by norm_num), ?_⟩
  exact ((create_default_shots_spec 25).2.1 (by norm_num)).2.2.2.1

/-- C2 (amended): the serial slice gate counts an artifact valid iff its
output file exists, its size is at least 1024 bytes (the code rejects
`file_size < 1024`, so exactly 1024 bytes passes), and its duration lies
in (0, 300]. -/
theorem slice_is_valid_iff (fs : FileSystem) (s : SliceInfo) :
    slice_is_valid fs s = true ↔
      ∃ file_size, fs s.file_path = some file_size ∧ 1024 ≤ file_size ∧
        0 < s.duration ∧ s.duration ≤ 300 := by
  unfold slice_is_valid
  cases h : fs s.file_path with
  | none => simp
  | some file_size =>
    show (if file_size < 1024 then false
      else if s.duration ≤ 0 ∨ s.duration > 300 then false
      else true) = true ↔ _
    by_cases h1 : file_size < 1024
    · rw [if_pos h1]
      refine iff_of_false (by simp) ?_
      rintro ⟨sz, hsz, hge, -, -⟩
      obtain rfl : file_size = sz := Option.some.inj hsz
      omega
    · rw [if_neg h1]
      by_cases h2 : s.duration ≤ 0 ∨ s.duration > 300
      · rw [if_pos h2]
        refine iff_of_false (by simp) ?_
        rintro ⟨sz, hsz, -, hpos, hle⟩
        rcases h2 with h2 | h2 <;> linarith
      · rw [if_neg h2]
        push_neg at h2
        exact iff_of_true rfl ⟨file_size, rfl, by omega, h2.1, h2.2⟩

/-- C2 counterexample: an artifact whose file is exactly 1024 bytes (with
an in-range duration) is counted valid by the code, although its size is
not strictly greater than 1024 bytes as the claim requires. -/
theorem slice_valid_at_size_1024 :
    slice_is_valid (fun _ => some 1024)
      { file_path := "p", duration := 5 } = true ∧
    ¬ ∃ file_size, (fun _ : String => (some 1024 : Option ℕ)) "p" =
        some file_size ∧ 1024 < file_size := by
  constructor
  · norm_num [slice_is_valid]
  · rintro ⟨sz, hsz, hlt⟩
    simp only [Option.some.injEq] at hsz
    omega

/-- C1 (amended): on a non-empty artifact list the serial slice gate
passes exactly when `validRatio >= 0.8`, `errorRatio <= 0.2` and
`validCount >= 2`, whereas the parallel processor's slice gate passes
exactly when its success rate `(validCount / total) * 100` is at least 80,
with no separate error-ratio or minimum-count requirement. -/
theorem slice_gate_passed_iff (fs : FileSystem) (slices : List SliceInfo)
    (h : slices ≠ []) :
    ((validate_slice_quality fs slices).passed = true ↔
      8/10 ≤ ((slices.countP (fun s => slice_is_valid fs s) : ℚ) /
          (slices.length : ℚ)) ∧
      ((slices.countP (fun s => !slice_is_valid fs s) : ℚ) /
          (slices.length : ℚ)) ≤ 2/10 ∧
      2 ≤ slices.countP (fun s => slice_is_valid fs s)) ∧
    ((parallel_validate_slice_quality fs slices).passed = true ↔
      80 ≤ (slices.countP (fun s => parallel_slice_is_valid fs s) : ℚ) /
          (slices.length : ℚ) * 100) := by
  have hne : ¬ slices.isEmpty = true := by
    simp [List.isEmpty_iff, h]
  constructor
  · unfold validate_slice_quality
    rw [if_neg hne]
    by_cases h1 : ((slices.countP (fun s => slice_is_valid fs s) : ℚ) /
        (slices.length : ℚ)) < 8/10
    · rw [if_pos h1]
      refine iff_of_false (by simp) ?_
      rintro ⟨ha, -, -⟩
      exact absurd ha (not_le.2 h1)
    · rw [if_neg h1]
      by_cases h2 : ((slices.countP (fun s => !slice_is_valid fs s) : ℚ) /
          (slices.length : ℚ)) > 2/10
      · rw [if_pos h2]
        refine iff_of_false (by simp) ?_
        rintro ⟨-, hb, -⟩
        exact absurd hb (not_le.2 h2)
      · rw [if_neg h2]
        by_cases h3 : slices.countP (fun s => slice_is_valid fs s) < 2
        · rw [if_pos h3]
          refine iff_of_false (by simp) ?_
          rintro ⟨-, -, hc⟩
          omega
        · rw [if_neg h3]
          exact iff_of_true rfl ⟨not_lt.1 h1, not_lt.1 h2, by omega⟩
  · unfold parallel_validate_slice_quality
    rw [if_neg hne]
    simp [decide_eq_true_iff]

/-- Concrete instantiation of `slice_gate_passed_iff` at a two-artifact
list whose files both exist with 2048 bytes and 5-second durations. -/
theorem slice_gate_passed_iff_witness :
    (validate_slice_quality (fun _ => some 2048)
      [{ file_path := "a", duration := 5 },
       { file_path := "b", duration := 6 }]).passed = true := by
  have h := slice_gate_passed_iff (fun _ => some 2048)
    [{ file_path := "a", duration := 5 },
     { file_path := "b", duration := 6 }] (by simp)
  refine h.1.2 ?_
  norm_num [List.countP, List.countP.go, slice_is_valid]

/-- C1 counterexample: a single valid artifact makes the parallel slice
gate pass (success rate 100%), even though its valid count 1 falls short
of the claimed `validCount >= 2` requirement, so the claimed equivalence
fails on this gate. -/
theorem parallel_slice_gate_single_valid_passes :
    (parallel_validate_slice_quality (fun _ => some 2048)
      [{ file_path := "p", duration := 5 }]).passed = true ∧
    (parallel_validate_slice_quality (fun _ => some 2048)
      [{ file_path := "p", duration := 5 }]).valid_slices = 1 ∧
    ¬ (2 ≤ (parallel_validate_slice_quality (fun _ => some 2048)
      [{ file_path := "p", duration := 5 }]).valid_slices) := by
  refine ⟨?_, ?_, ?_⟩ <;>
    norm_num [parallel_validate_slice_quality, List.countP, List.countP.go,
      parallel_slice_is_valid]

/-- C3 (amended): in the serial `process_video` slicing loop the encoder
is invoked exactly on the shots whose duration is at least 1.0 seconds
(ranges below 1.0s are skipped before invocation), and the produced
slice records are exactly the encoder's successful outputs on those
invocations, so skipped ranges contribute neither results nor
failures. -/
theorem serial_loop_skips_short_ranges (encoder : Shot → Option SliceInfo)
    (shots : List Shot) :
    (process_video_slices encoder shots).1 =
      shots.filter (fun s => !decide (s.end_time - s.start_time < 1)) ∧
    (process_video_slices encoder shots).2 =
      ((process_video_slices encoder shots).1).filterMap encoder := by
  induction shots with
  | nil => simp [process_video_slices]
  | cons shot rest ih =>
    by_cases h : shot.end_time - shot.start_time < 1
    · simpa [process_video_slices, h] using ih
    · cases he : encoder shot with
      | none =>
        simp [process_video_slices, h, he, List.filterMap_cons, ih.1, ih.2]
      | some info =>
        simp [process_video_slices, h, he, List.filterMap_cons, ih.1, ih.2]

/-- C3 counterexample: the parallel segment extractor submits a range of
duration 0.5 < 1.0 to the encoder pool (its submission loop has no
duration filter). -/
theorem parallel_submits_short_range :
    ((0 : ℚ), (1/2 : ℚ)) ∈ extract_segments_parallel_submissions
      [{ index := 1, start_time := 0, end_time := 1/2, duration := 1/2 }] ∧
    (1/2 : ℚ) - 0 < 1 := by
  constructor
  · simp [extract_segments_parallel_submissions]
  · norm_num

/-- C5: on the empty segment list the transcript gate rejects at once with
the distinct no-segments reason, whatever the threshold parameters are
(the early return precedes every threshold check). -/
theorem segments_gate_empty_rejects (min_valid_ratio max_error_ratio : ℚ)
    (min_segments : ℕ) :
    (validate_segments_quality min_valid_ratio max_error_ratio min_segments
      []).passed = false ∧
    (validate_segments_quality min_valid_ratio max_error_ratio min_segments
      []).reason = some .noSegments := by
  constructor <;> rfl

/-- C4: on a non-empty segment list the transcript gate passes exactly
when `validRatio >= 0.9`, `errorRatio <= 0.1` and `validCount >= 1`,
where the error ratio divides only the timestamp-invalid and empty-text
counts by the total; the overlap count is reported in the verdict but
appears in none of the three conditions. -/
theorem segments_gate_passed_iff (segments : List RawSegment)
    (h : segments ≠ []) :
    ((validate_segments_quality (9/10) (1/10) 1 segments).passed = true ↔
      9/10 ≤ (segments.countP RawSegment.is_valid : ℚ) /
          (segments.length : ℚ) ∧
      ((segments.countP RawSegment.timestamp_error : ℚ) +
          (segments.countP RawSegment.text_missing : ℚ)) /
          (segments.length : ℚ) ≤ 1/10 ∧
      1 ≤ segments.countP RawSegment.is_valid) ∧
    (validate_segments_quality (9/10) (1/10) 1 segments).overlap_errors =
      overlap_errors_loop segments 0 := by
  have hne : ¬ segments.isEmpty = true := by
    simp [List.isEmpty_iff, h]
  constructor
  · unfold validate_segments_quality
    rw [if_neg hne]
    by_cases h1 : segments.countP RawSegment.is_valid < 1
    · rw [if_pos h1]
      refine iff_of_false (by simp) ?_
      rintro ⟨-, -, hc⟩
      omega
    · rw [if_neg h1]
      by_cases h2 : (segments.countP RawSegment.is_valid : ℚ) /
          (segments.length : ℚ) < 9/10
      · rw [if_pos h2]
        refine iff_of_false (by simp) ?_
        rintro ⟨ha, -, -⟩
        exact absurd ha (not_le.2 h2)
      · rw [if_neg h2]
        by_cases h3 : ((segments.countP RawSegment.timestamp_error : ℚ) +
            (segments.countP RawSegment.text_missing : ℚ)) /
            (segments.length : ℚ) > 1/10
        · rw [if_pos h3]
          refine iff_of_false (by simp) ?_
          rintro ⟨-, hb, -⟩
          exact absurd hb (not_le.2 h3)
        · rw [if_neg h3]
          exact iff_of_true rfl ⟨not_lt.1 h2, not_lt.1 h3, by omega⟩
  · unfold validate_segments_quality
    rw [if_neg hne]
    dsimp only
    split_ifs <;> rfl

/-- Concrete instantiation of `segments_gate_passed_iff` at a single
well-formed segment. -/
theorem segments_gate_passed_iff_witness :
    (validate_segments_quality (9/10) (1/10) 1
      [{ start? := some 0, stop? := some 2, text? := some "hi" }]).passed =
      true := by
  have h := segments_gate_passed_iff
    [{ start? := some 0, stop? := some 2, text? := some "hi" }] (by simp)
  refine (h.1).2 ?_
  have hvalid : List.countP RawSegment.is_valid
      [{ start? := some 0, stop? := some 2, text? := some "hi" }] = 1 := by
    decide
  have hts : List.countP RawSegment.timestamp_error
      [{ start? := some 0, stop? := some 2, text? := some "hi" }] = 0 := by
    decide
  have htm : List.countP RawSegment.text_missing
      [{ start? := some 0, stop? := some 2, text? := some "hi" }] = 0 := by
    decide
  rw [hvalid, hts, htm]
  norm_num

/-- C7: the submission phase of `analyze_video` retries only the
transient class of error.  If the attempts before attempt `k` were all
transient and attempt `k` raises a non-transient error, that error
propagates at once after `k` retry sleeps of 5 seconds; if all three
attempts are transient the exhaustion failure is reported after two
5-second sleeps; and a success at attempt `k` (after transient attempts)
returns at once. -/
theorem analyze_video_submit_retry_spec (oracle : ℕ → AttemptOutcome) :
    (∀ k, k < 3 → (∀ j, j < k → oracle j = .transient) →
      oracle k = .fatal →
      analyze_video_submit oracle = (.fatalError k, 5 * k)) ∧
    ((∀ j, j < 3 → oracle j = .transient) →
      analyze_video_submit oracle = (.exhausted, 10)) ∧
    (∀ k, k < 3 → (∀ j, j < k → oracle j = .transient) →
      oracle k = .ok →
      analyze_video_submit oracle = (.success k, 5 * k)) := by
  refine ⟨?_, ?_, ?_⟩
  · intro k hk hprev hfat
    interval_cases k
    · norm_num [analyze_video_submit, submit_loop, hfat]
    · have h0 := hprev 0 (by norm_num)
      norm_num [analyze_video_submit, submit_loop, h0, hfat]
    · have h0 := hprev 0 (by norm_num)
      have h1 := hprev 1 (by norm_num)
      norm_num [analyze_video_submit, submit_loop, h0, h1, hfat]
  · intro hall
    have h0 := hall 0 (by norm_num)
    have h1 := hall 1 (by norm_num)
    have h2 := hall 2 (by norm_num)
    norm_num [analyze_video_submit, submit_loop, h0, h1, h2]
  · intro k hk hprev hok
    interval_cases k
    · norm_num [analyze_video_submit, submit_loop, hok]
    · have h0 := hprev 0 (by norm_num)
      norm_num [analyze_video_submit, submit_loop, h0, hok]
    · have h0 := hprev 0 (by norm_num)
      have h1 := hprev 1 (by norm_num)
      norm_num [analyze_video_submit, submit_loop, h0, h1, hok]

/-- Concrete instantiations of `analyze_video_submit_retry_spec`: an
immediately fatal submission propagates with no retry, and an
always-unavailable service exhausts the three attempts with two 5-second
sleeps. -/
theorem analyze_video_submit_retry_spec_witness :
    analyze_video_submit (fun _ => .fatal) = (.fatalError 0, 0) ∧
    analyze_video_submit (fun _ => .transient) = (.exhausted, 10) := by
  constructor
  · simpa using (analyze_video_submit_retry_spec (fun _ => .fatal)).1 0
      (by norm_num) (fun j hj => absurd hj (Nat.not_lt_zero j)) rfl
  · exact (analyze_video_submit_retry_spec (fun _ => .transient)).2.1
      (fun j _ => rfl)

/-- C9: the quality gates are pure functions of the artifact list and the
file metadata it points at: two filesystem views that agree on every
listed artifact's path give identical verdicts (so repeated calls with
unchanged metadata return the same verdict, reason and statistics), and
repeated calls of either gate on the same input are equal outright.  The
embedded gates take the artifact list immutably, mirroring the source
which only reads `slices` / `segments`. -/
theorem quality_gates_pure_idempotent :
    (∀ (fs fs' : FileSystem) (slices : List SliceInfo),
      (∀ s ∈ slices, fs s.file_path = fs' s.file_path) →
      validate_slice_quality fs slices = validate_slice_quality fs' slices) ∧
    (∀ (fs : FileSystem) (slices : List SliceInfo),
      validate_slice_quality fs slices = validate_slice_quality fs slices) ∧
    (∀ segments : List RawSegment,
      validate_segments_quality (9/10) (1/10) 1 segments =
        validate_segments_quality (9/10) (1/10) 1 segments) := by
  refine ⟨?_, fun _ _ => rfl, fun _ => rfl⟩
  intro fs fs' slices hagree
  have hv : ∀ s ∈ slices, slice_is_valid fs s = slice_is_valid fs' s := by
    intro s hs
    unfold slice_is_valid
    rw [hagree s hs]
  have h1 : slices.countP (fun s => slice_is_valid fs s) =
      slices.countP (fun s => slice_is_valid fs' s) :=
    List.countP_congr (fun s hs => by rw [hv s hs])
  have h2 : slices.countP (fun s => !slice_is_valid fs s) =
      slices.countP (fun s => !slice_is_valid fs' s) :=
    List.countP_congr (fun s hs => by rw [hv s hs])
  have h3 : slices.filter (fun s => slice_is_valid fs s) =
      slices.filter (fun s => slice_is_valid fs' s) :=
    List.filter_congr (fun s hs => by rw [hv s hs])
  unfold validate_slice_quality
  rw [h1, h2, h3]

/-- Concrete instantiation of `quality_gates_pure_idempotent`: the
agreement hypothesis is discharged (vacuously) on the empty artifact
list. -/
theorem quality_gates_pure_idempotent_witness :
    validate_slice_quality (fun _ => some 2048) [] =
      validate_slice_quality (fun _ => none) [] :=
  quality_gates_pure_idempotent.1 (fun _ => some 2048) (fun _ => none) []
    (by simp)

/-- One loop step only ever adds SRT files to the output directory. -/
lemma srt_process_file_fs_mono (transcribe : String → TransOutcome)
    (target : String → String) (st : SrtBatchState) (f : String)
    (p : String) (h : st.srt_exists p = true) :
    (srt_process_file transcribe target st f).srt_exists p = true := by
  unfold srt_process_file
  by_cases hex : st.srt_exists (target f) = true
  · rw [if_pos hex]
    exact h
  · rw [if_neg hex]
    cases transcribe f
    · by_cases hp : p = target f <;> simp [hp, h]
    · exact h
    · exact h

/-- Across the whole loop, an SRT file present at the start stays
present. -/
lemma srt_batch_loop_fs_mono (transcribe : String → TransOutcome)
    (target : String → String) (video_files : List String) :
    ∀ (st : SrtBatchState) (p : String), st.srt_exists p = true →
      (srt_batch_loop transcribe target st video_files).srt_exists p =
        true := by
  induction video_files with
  | nil => intro st p h; exact h
  | cons g rest ih =>
    intro st p h
    exact ih (srt_process_file transcribe target st g) p
      (srt_process_file_fs_mono transcribe target st g p h)

/-- A file is handed to the transcriber only when its target SRT file is
absent at that moment, hence absent at the start of the loop. -/
lemma srt_batch_loop_calls (transcribe : String → TransOutcome)
    (target : String → String) (video_files : List String) :
    ∀ (st : SrtBatchState) (f : String),
      f ∈ (srt_batch_loop transcribe target st video_files).calls →
      f ∈ st.calls ∨ st.srt_exists (target f) = false := by
  induction video_files with
  | nil => intro st f h; exact Or.inl h
  | cons g rest ih =>
    intro st f h
    have hstep := ih (srt_process_file transcribe target st g) f h
    have hmono := srt_process_file_fs_mono transcribe target st g (target f)
    rcases hstep with hc | hfs
    · unfold srt_process_file at hc
      by_cases hex : st.srt_exists (target g) = true
      · rw [if_pos hex] at hc
        exact Or.inl hc
      · rw [if_neg hex] at hc
        have hgf : f ∈ st.calls ++ [g] → f ∈ st.calls ∨
            st.srt_exists (target f) = false := by
          intro hm
          rcases List.mem_append.1 hm with hm | hm
          · exact Or.inl hm
          · obtain rfl : f = g := List.mem_singleton.1 hm
            exact Or.inr (Bool.not_eq_true _ ▸ eq_false_of_ne_true hex)
        cases htr : transcribe g <;> rw [htr] at hc <;> exact hgf hc
    · by_cases hst : st.srt_exists (target f) = true
      · rw [hmono hst] at hfs
        cases hfs
      · exact Or.inr (eq_false_of_ne_true hst)

/-- The recorded success list only grows along the loop. -/
lemma srt_batch_loop_success_files_mono (transcribe : String → TransOutcome)
    (target : String → String) (video_files : List String) :
    ∀ (st : SrtBatchState) (x : String × String), x ∈ st.success_files →
      x ∈ (srt_batch_loop transcribe target st video_files).success_files := by
  induction video_files with
  | nil => intro st x h; exact h
  | cons g rest ih =>
    intro st x h
    refine ih (srt_process_file transcribe target st g) x ?_
    unfold srt_process_file
    by_cases hex : st.srt_exists (target g) = true
    · rw [if_pos hex]
      exact List.mem_append_left _ h
    · rw [if_neg hex]
      cases transcribe g
      · exact List.mem_append_left _ h
      · exact h
      · exact h

/-- A file whose target SRT is present when the loop reaches it is
recorded as an already-existing success. -/
lemma srt_batch_loop_preexisting (transcribe : String → TransOutcome)
    (target : String → String) (video_files : List String) :
    ∀ (st : SrtBatchState) (f : String), f ∈ video_files →
      st.srt_exists (target f) = true →
      (f, "已存在") ∈
        (srt_batch_loop transcribe target st video_files).success_files := by
  induction video_files with
  | nil => intro st f h; cases h
  | cons g rest ih =>
    intro st f hmem hex
    rcases List.mem_cons.1 hmem with rfl | hmem
    · refine srt_batch_loop_success_files_mono transcribe target rest
        (srt_process_file transcribe target st f) (f, "已存在") ?_
      unfold srt_process_file
      rw [if_pos hex]
      exact List.mem_append_right _ (List.mem_singleton.2 rfl)
    · exact ih (srt_process_file transcribe target st g) f hmem
        (srt_process_file_fs_mono transcribe target st g (target f) hex)

/-- The success counter always equals the length of the recorded success
list. -/
lemma srt_batch_loop_count (transcribe : String → TransOutcome)
    (target : String → String) (video_files : List String) :
    ∀ st : SrtBatchState,
      st.success_count = st.success_files.length →
      (srt_batch_loop transcribe target st video_files).success_count =
        (srt_batch_loop transcribe target st video_files).success_files.length := by
  induction video_files with
  | nil => intro st h; exact h
  | cons g rest ih =>
    intro st h
    refine ih (srt_process_file transcribe target st g) ?_
    unfold srt_process_file
    by_cases hex : st.srt_exists (target g) = true
    · rw [if_pos hex]
      simp [h]
    · rw [if_neg hex]
      cases transcribe g
      · simp [h]
      · exact h
      · exact h

/-- C10: in `batch_process`, files whose target SRT file already exists
are never handed to the transcriber (only files without a pre-existing
SRT output are transcribed), each such file is counted as a success and
recorded with status "已存在", and the success counter matches the
recorded success list. -/
theorem batch_process_skips_existing_srt (video_files : List String)
    (srt_exists0 : String → Bool) (transcribe : String → TransOutcome)
    (target : String → String) :
    (∀ f ∈ (srt_batch_loop transcribe target
        { srt_exists := srt_exists0, success_count := 0, failed_count := 0,
          quality_rejected_count := 0, success_files := [], calls := [] }
        video_files).calls, srt_exists0 (target f) = false) ∧
    (∀ f ∈ video_files, srt_exists0 (target f) = true →
      f ∉ (srt_batch_loop transcribe target
        { srt_exists := srt_exists0, success_count := 0, failed_count := 0,
          quality_rejected_count := 0, success_files := [], calls := [] }
        video_files).calls ∧
      (f, "已存在") ∈ (srt_batch_loop transcribe target
        { srt_exists := srt_exists0, success_count := 0, failed_count := 0,
          quality_rejected_count := 0, success_files := [], calls := [] }
        video_files).success_files) ∧
    (srt_batch_loop transcribe target
      { srt_exists := srt_exists0, success_count := 0, failed_count := 0,
        quality_rejected_count := 0, success_files := [], calls := [] }
      video_files).success_count =
    (srt_batch_loop transcribe target
      { srt_exists := srt_exists0, success_count := 0, failed_count := 0,
        quality_rejected_count := 0, success_files := [], calls := [] }
      video_files).success_files.length := by
  refine ⟨?_, ?_, ?_⟩
  · intro f hf
    rcases srt_batch_loop_calls transcribe target video_files _ f hf with
      hc | hfs
    · cases hc
    · exact hfs
  · intro f hmem hex
    constructor
    · intro hf
      rcases srt_batch_loop_calls transcribe target video_files _ f hf with
        hc | hfs
      · cases hc
      · dsimp only at hfs
        rw [hex] at hfs
        cases hfs
    · exact srt_batch_loop_preexisting transcribe target video_files _ f
        hmem hex
  · exact srt_batch_loop_count transcribe target video_files _ rfl

/-- Concrete instantiation of `batch_process_skips_existing_srt`: with the
single file "a" whose SRT pre-exists, the file is skipped, recorded as
already existing, and never transcribed. -/
theorem batch_process_skips_existing_srt_witness :
    ("a", "已存在") ∈ (srt_batch_loop (fun _ => .ok) (fun f => f)
      { srt_exists := fun _ => true, success_count := 0, failed_count := 0,
        quality_rejected_count := 0, success_files := [], calls := [] }
      ["a"]).success_files :=
  ((batch_process_skips_existing_srt ["a"] (fun _ => true) (fun _ => .ok)
    (fun f => f)).2.1 "a" (List.mem_singleton.2 rfl) rfl).2

/-- C8 (amended): when discovery succeeds (input directory exists, at
least one file matched) the slicer's `main` always exits 0, whatever the
per-item outcomes; the transcriber's `main` still runs the whole batch
and produces its results, but exits 0 only when no item hard-failed
(quality-rejected items alone do not make it non-zero). -/
theorem main_exit_spec :
    (∀ (video_files : List String) (item_success : String → Bool),
      video_files ≠ [] →
        slicer_main_exit true video_files item_success = 0) ∧
    (∀ (video_files : List String) (srt_exists0 : String → Bool)
        (transcribe : String → TransOutcome) (target : String → String),
      video_files ≠ [] →
        ∃ results, srt_batch_process true video_files srt_exists0 transcribe
            target = some results ∧
          srt_main_exit true video_files srt_exists0 transcribe target =
            (if results.failed_count = 0 then 0 else 1)) := by
  constructor
  · intro video_files item_success h
    unfold slicer_main_exit process_batch
    simp [List.isEmpty_iff, h]
  · intro video_files srt_exists0 transcribe target h
    refine ⟨srt_batch_loop transcribe target
      { srt_exists := srt_exists0, success_count := 0, failed_count := 0,
        quality_rejected_count := 0, success_files := [], calls := [] }
      video_files, ?_, ?_⟩
    · unfold srt_batch_process
      simp [List.isEmpty_iff, h]
    · unfold srt_main_exit srt_batch_process
      simp [List.isEmpty_iff, h]

/-- Concrete instantiation of `main_exit_spec` with one discovered file on
each side. -/
theorem main_exit_spec_witness :
    slicer_main_exit true ["v.mp4"] (fun _ => false) = 0 ∧
    ∃ results, srt_batch_process true ["v.mp4"] (fun _ => false)
        (fun _ => .ok) (fun f => f) = some results ∧
      srt_main_exit true ["v.mp4"] (fun _ => false) (fun _ => .ok)
        (fun f => f) = (if results.failed_count = 0 then 0 else 1) :=
  ⟨main_exit_spec.1 ["v.mp4"] (fun _ => false) (by simp),
   main_exit_spec.2 ["v.mp4"] (fun _ => false) (fun _ => .ok) (fun f => f)
     (by simp)⟩

/-- C8 counterexample: a transcription batch whose discovery succeeded
(directory present, one file found) but whose single item hard-failed
exits with status 1, not 0 as the claim states. -/
theorem srt_main_exit_nonzero_on_failed_item :
    srt_main_exit true ["a.mp4"] (fun _ => false) (fun _ => .failed)
      (fun f => f) = 1 ∧ (["a.mp4"] : List String) ≠ [] := by
  constructor
  · rfl
  · simp

end AIVideoMaster
